import Mathlib

/-!
Verification development for the PiHome home-automation daemons.

The definitions below are shallow embeddings of the Python sources:
  * `common/mqttclient.py`   — topic-pattern compilation and message dispatch,
    callback registration and removal;
  * `common/stoppableprocess.py` — the cancellable periodic-task runtime
    `StoppableLoopProcess.run`;
  * `agents/sensorsmanager.py`   — the sensor worker publish-gate discipline
    and its teardown;
  * `agents/presencedetector.py` — the network presence worker.

Machine-level side effects (broker I/O, GPIO calls, logging) are modelled as
events in explicit traces; lock acquisition under contention is modelled by
comparing the release delay of the current holder with the timeout budget of
the acquirer.
-/

namespace PiHome

/-! ## Topic matcher (`common/mqttclient.py`) -/

/-- Single-character `str.replace` as used in `_topic_to_regex`: every
occurrence of the character `c` is replaced by the string `r`. -/
def replaceChar (c : Char) (r : List Char) : List Char → List Char
  | [] => []
  | d :: ds => (if d = c then r else [d]) ++ replaceChar c r ds

/-- The regex source string built by `_topic_to_regex` in `mqttclient.py`:
the topic pattern with `/` replaced by the two characters backslash-slash,
then `#` replaced by the four characters `(.*)` and finally `+` replaced by
the same four characters `(.*)`. -/
def topicToRegexStr (topic : List Char) : List Char :=
  replaceChar '+' ['(', '.', '*', ')']
    (replaceChar '#' ['(', '.', '*', ')']
      (replaceChar '/' ['\\', '/'] topic))

/-- Tokens of the regex fragment that `_topic_to_regex` produces (for topic
patterns whose literal characters are not themselves regex metacharacters):
escaped literals, plain literals, the any-character dot, and the group
`(.*)`. -/
inductive RegexTok
  | lit (c : Char)
  | anyChar
  | dotStar
  deriving DecidableEq

/-- Tokenizer for the regex fragment: a backslash escapes the next character
into a literal, the four-character sequence `(.*)` is the star group, an
unescaped dot matches any character, and every other character is a
literal. -/
def tokenize : List Char → List RegexTok
  | [] => []
  | '\\' :: c :: rest => RegexTok.lit c :: tokenize rest
  | '(' :: '.' :: '*' :: ')' :: rest => RegexTok.dotStar :: tokenize rest
  | '.' :: rest => RegexTok.anyChar :: tokenize rest
  | c :: rest => RegexTok.lit c :: tokenize rest

/-- Semantics of the group `(.*)` followed by a continuation matcher `m`:
the group consumes some run of non-newline characters at the front of the
string and the continuation must accept the remainder.  Greedy versus lazy
consumption is irrelevant for the boolean outcome, so all splits are
tried. -/
def starMatches (m : List Char → Bool) : List Char → Bool
  | [] => m []
  | d :: ds => m (d :: ds) || (d != '\n' && starMatches m ds)

/-- Truthiness of Python `pattern.match(s)`: the regex must match at the
start of the string but is not anchored at the end, so once the token list
is exhausted the match succeeds whatever remains of the string.  The dot
(and hence the group `(.*)`) matches any character except a newline, as in
the default Python `re` flags. -/
def matchesAt : List RegexTok → List Char → Bool
  | [], _ => true
  | RegexTok.lit _ :: _, [] => false
  | RegexTok.lit c :: ts, d :: ds => c == d && matchesAt ts ds
  | RegexTok.anyChar :: _, [] => false
  | RegexTok.anyChar :: ts, d :: ds => d != '\n' && matchesAt ts ds
  | RegexTok.dotStar :: ts, s => starMatches (matchesAt ts) s

/-- Whether the matcher compiled from `pattern` accepts the concrete `topic`:
this is the test `topic_regex.match(message.topic)` performed in
`MQTTClient.on_messagge` with the regex produced by `_topic_to_regex`. -/
def topicMatch (pattern topic : String) : Bool :=
  matchesAt (tokenize (topicToRegexStr pattern.toList)) topic.toList

/-! ## Callback registry (`MQTTClient.register` and `MQTTClient.unregister`)

The Python dictionary `self._callbacks` is keyed by compiled regex objects.
CPython caches compilations, so two calls of `_topic_to_regex` on the same
pattern string return the same object and dictionary-key identity coincides
with equality of the regex source string.  The registry is therefore
modelled as an association list keyed by that string. -/

/-- The registry key for a subscription: the regex source string of the
complete topic, which `register` and `unregister` both form as the base
topic, a slash, and the pattern. -/
def regKey (baseTopic topic : String) : List Char :=
  topicToRegexStr (baseTopic ++ "/" ++ topic).toList

/-- `MQTTClient.register`: `self._callbacks[regex] = callback` — a Python
dictionary assignment replaces the entry when the key exists and appends it
otherwise. -/
def register {α : Type} (baseTopic : String) (cbs : List (List Char × α))
    (topic : String) (cb : α) : List (List Char × α) :=
  let k := regKey baseTopic topic
  if cbs.any (fun e => e.1 == k) then
    cbs.map (fun e => if e.1 == k then (k, cb) else e)
  else
    cbs ++ [(k, cb)]

/-- `MQTTClient.unregister`: `del self._callbacks[regex]` — deleting a key
that is absent raises `KeyError` (modelled by `Except.error ()`); otherwise
the entry is removed. -/
def unregister {α : Type} (baseTopic : String) (cbs : List (List Char × α))
    (topic : String) : Except Unit (List (List Char × α)) :=
  let k := regKey baseTopic topic
  if cbs.any (fun e => e.1 == k) then
    Except.ok (cbs.filter (fun e => !(e.1 == k)))
  else
    Except.error ()

/-! ## Cancellable loop runtime (`common/stoppableprocess.py`) -/

/-- Observable calls made by one execution of `StoppableLoopProcess.run`. -/
inductive LoopEv
  | setup
  | step
  | wait
  | teardown
  deriving DecidableEq

/-- Outcome of one `_loop()` invocation: normal return, or an uncaught
exception. -/
inductive StepRes
  | ok
  | exn
  deriving DecidableEq

/-- The loop body of `StoppableLoopProcess.run`.  `stepRes i` is the outcome
of the i-th `_loop()` call (0-based); `n` is the number of loop iterations
performed before `_stop_looping.is_set()` first returns true (the signal
handler sets the event during some earlier interruptible wait).  The result
is the trace of calls after `_setup`, paired with `true` exactly when an
uncaught exception propagates out of `run`.  The source wraps the loop in no
try/finally, so an exception raised by `_loop` unwinds `run` at once and
`_teardown` is reached only when the while condition fails. -/
def runGo (stepRes : Nat → StepRes) : Nat → Nat → List LoopEv × Bool
  | _, 0 => ([LoopEv.teardown], false)
  | i, n + 1 =>
    match stepRes i with
    | StepRes.exn => ([LoopEv.step], true)
    | StepRes.ok =>
        let r := runGo stepRes (i + 1) n
        (LoopEv.step :: LoopEv.wait :: r.1, r.2)

/-- One execution of `StoppableLoopProcess.run`: `_setup`, then the loop,
then — only on normal loop exit — `_teardown`. -/
def run (stepRes : Nat → StepRes) (stopAfter : Nat) : List LoopEv × Bool :=
  let r := runGo stepRes 0 stopAfter
  (LoopEv.setup :: r.1, r.2)

/-! ## Sensor worker (`agents/sensorsmanager.py`) -/

/-- Gate timeout, in seconds, used by `SensorsManager._post_samples`:
`self._lock.acquire(block=True, timeout=5)`. -/
def postSamplesTimeout : Nat := 5

/-- Gate timeout, in seconds, used by `SensorsManager._post_event`:
`self._lock.acquire(block=True, timeout=20)`. -/
def postEventTimeout : Nat := 20

/-- Gate timeout, in seconds, used by `SensorsManager._teardown`:
`self._lock.acquire(block=True, timeout=10)`. -/
def teardownTimeout : Nat := 10

/-- Blocking `multiprocessing.Lock.acquire` under contention: the gate is
currently held and will be released `releaseAfter` seconds from now, and the
acquire succeeds exactly when the release falls within the timeout
budget. -/
def acquireGate (releaseAfter timeout : Nat) : Bool :=
  releaseAfter ≤ timeout

/-- Whether `SensorsManager._post_event` publishes the event when it runs
while the gate is held by a party that releases it after `releaseAfter`
seconds: the publish happens exactly when the 20-second acquire succeeds,
otherwise the event is dropped. -/
def postEventPublishes (releaseAfter : Nat) : Bool :=
  acquireGate releaseAfter postEventTimeout

/-- Whether `SensorsManager._post_samples` publishes its batch under the
same contention model, with the 5-second budget. -/
def postSamplesPublishes (releaseAfter : Nat) : Bool :=
  acquireGate releaseAfter postSamplesTimeout

/-- Observable calls made by `SensorsManager._teardown`. -/
inductive TeardownEv
  | removeEventDetect (channel : Nat)
  | mqttStop
  deriving DecidableEq

/-- `SensorsManager._teardown`: the whole body — unregistering every GPIO
event callback and stopping the broker client — sits inside
`if self._lock.acquire(block=True, timeout=10):`, so when the acquire times
out the method returns without doing either. -/
def sensorsTeardown (eventChannels : List Nat) (lockAcquired : Bool) :
    List TeardownEv :=
  if lockAcquired then
    eventChannels.map TeardownEv.removeEventDetect ++ [TeardownEv.mqttStop]
  else
    []

/-! ## Presence worker (`agents/presencedetector.py`) -/

/-- The probe loop of `NetworkPresenceDetector._detect_person_presence`:
`attempts` counts the rounds already performed and the second argument is
`max_attempts - attempts`.  `probe i` is the result of the i-th
`is_ip_online` call (1-based).  Returns the number of probe rounds performed
and the final `presence_detected` flag: each round increments the counter
and calls the probe; a positive result breaks out of the loop at once, a
negative one waits and retries until the attempt budget is exhausted. -/
def detectLoop (probe : Nat → Bool) : Nat → Nat → Nat × Bool
  | attempts, 0 => (attempts, false)
  | attempts, remaining + 1 =>
    if probe (attempts + 1) then (attempts + 1, true)
    else detectLoop probe (attempts + 1) remaining

/-- `_detect_person_presence` for one subject: run the probe loop starting
from zero performed attempts. -/
def detectPersonPresence (maxAttempts : Nat) (probe : Nat → Bool) :
    Nat × Bool :=
  detectLoop probe 0 maxAttempts

/-- The status string placed in the payload by
`NetworkPresenceDetector._notify_status`. -/
def statusString (isPresent : Bool) : String :=
  if isPresent then "present" else "absent"

/-- `NetworkPresenceDetector._update_presence_status` for one subject: given
the previously recorded status and the new detection outcome, return the
newly recorded status and whether `_notify_status` is invoked — it is
invoked when `notify_always` is set or when the outcome differs from the
recorded status. -/
def updatePresenceStatus (notifyAlways prev isPresent : Bool) : Bool × Bool :=
  let statusChanged := isPresent != prev
  (isPresent, notifyAlways || statusChanged)

/-- Successive ticks for one subject: fold `_update_presence_status` over a
list of detection outcomes, threading the recorded status and counting the
publishes. -/
def runTicks (notifyAlways : Bool) (prev : Bool) : List Bool → Nat
  | [] => 0
  | o :: rest =>
    let r := updatePresenceStatus notifyAlways prev o
    (if r.2 then 1 else 0) + runTicks notifyAlways r.1 rest

/-- `NetworkPresenceDetector.__init__`: the recorded presence map is
`{person[0]: False for person in persons}` — every tracked subject starts
absent. -/
def initPersonsStatus (persons : List (String × String)) :
    List (String × Bool) :=
  persons.map (fun p => (p.1, false))

/-- Lookup in the recorded-presence map. -/
def lookupStatus (m : List (String × Bool)) (name : String) : Option Bool :=
  match m with
  | [] => none
  | e :: rest => if e.1 = name then some e.2 else lookupStatus rest name

/-! ## Theorems -/

/-- Helper for C1: on every suffix of the loop, the trace ends with exactly
one `_teardown` call when no exception propagates, and contains none when
one does. -/
theorem runGo_spec (f : Nat → StepRes) (n : Nat) : ∀ i : Nat,
    ((runGo f i n).2 = false →
      (runGo f i n).1.count LoopEv.teardown = 1 ∧
      (runGo f i n).1.getLast? = some LoopEv.teardown)
    ∧ ((runGo f i n).2 = true → (runGo f i n).1.count LoopEv.teardown = 0) := by
  induction n with
  | zero =>
    intro i
    refine ⟨fun _ => ⟨rfl, rfl⟩, fun h => ?_⟩
    simp [runGo] at h
  | succ n ih =>
    intro i
    cases hstep : f i with
    | exn =>
      refine ⟨fun hfalse => ?_, fun _ => ?_⟩
      · exfalso
        simp [runGo, hstep] at hfalse
      · simp [runGo, hstep]
    | ok =>
      have hr := ih (i + 1)
      refine ⟨fun hfalse => ?_, fun htrue => ?_⟩
      · have h2 : (runGo f (i + 1) n).2 = false := by
          simpa [runGo, hstep] using hfalse
        obtain ⟨hcount, hlast⟩ := hr.1 h2
        refine ⟨?_, ?_⟩
        · simp [runGo, hstep, List.count_cons, hcount]
        · cases hl : (runGo f (i + 1) n).1 with
          | nil => rw [hl] at hlast; cases hlast
          | cons a l =>
            rw [hl] at hlast
            simp [runGo, hstep, hl, List.getLast?_cons_cons, hlast]
      · have h2 : (runGo f (i + 1) n).2 = true := by
          simpa [runGo, hstep] using htrue
        have hcount := hr.2 h2
        simp [runGo, hstep, List.count_cons, hcount]

/-- C1 counterexample: with a single loop iteration whose `_loop` call
raises, the trace of `run` contains no `_teardown` call at all while the
exception propagates out of `run` — refuting the claim that `teardown` is
called exactly once even when a step raises. -/
theorem c1_teardown_counterexample :
    (run (fun _ => StepRes.exn) 1).1.count LoopEv.teardown = 0 ∧
    (run (fun _ => StepRes.exn) 1).2 = true :=
  ⟨rfl, rfl⟩

/-- C1 (amended): for every run of the cancellable loop, when the loop
exits normally (no uncaught exception from any `_loop` call) `_teardown` is
called exactly once and is the last call of the trace; when an uncaught
exception propagates out of `run`, `_teardown` is not called at all —
`run` has no try/finally, so the exception unwinds it before the teardown
line is reached. -/
theorem c1_teardown_amended (f : Nat → StepRes) (n : Nat) :
    ((run f n).2 = false →
      (run f n).1.count LoopEv.teardown = 1 ∧
      (run f n).1.getLast? = some LoopEv.teardown)
    ∧ ((run f n).2 = true → (run f n).1.count LoopEv.teardown = 0) := by
  have hr := runGo_spec f n 0
  refine ⟨fun hfalse => ?_, fun htrue => ?_⟩
  · have h2 : (runGo f 0 n).2 = false := by simpa [run] using hfalse
    obtain ⟨hcount, hlast⟩ := hr.1 h2
    refine ⟨?_, ?_⟩
    · simp [run, List.count_cons, hcount]
    · cases hl : (runGo f 0 n).1 with
      | nil => rw [hl] at hlast; cases hlast
      | cons a l =>
        rw [hl] at hlast
        simp [run, hl, List.getLast?_cons_cons, hlast]
  · have h2 : (runGo f 0 n).2 = true := by simpa [run] using htrue
    have hcount := hr.2 h2
    simp [run, List.count_cons, hcount]

/-- C1 witness: a concrete two-iteration run with well-behaved steps exits
without exception and performs exactly one `_teardown`. -/
theorem c1_teardown_amended_witness :
    (run (fun _ => StepRes.ok) 2).2 = false ∧
    (run (fun _ => StepRes.ok) 2).1.count LoopEv.teardown = 1 :=
  ⟨rfl, ((c1_teardown_amended (fun _ => StepRes.ok) 2).1 rfl).1⟩

/-- C2 counterexample: the matcher compiled from `a/+/c` accepts the topic
`a/x/y/c`, refuting the claim that a `+` wildcard matches exactly one topic
segment and no more. -/
theorem c2_plus_wildcard_counterexample :
    topicMatch "a/+/c" "a/x/y/c" = true := by decide

/-- C2 (amended): a `+` wildcard segment is compiled to the group `(.*)`,
which matches any run of non-newline characters, separators included: the
matcher compiled from `a/+/c` accepts both `a/x/c` (one segment under the
wildcard) and `a/x/y/c` (two segments under the wildcard), while still
rejecting topics whose literal parts disagree. -/
theorem c2_plus_wildcard_amended :
    topicMatch "a/+/c" "a/x/c" = true ∧
    topicMatch "a/+/c" "a/x/y/c" = true ∧
    topicMatch "a/+/c" "b/x/c" = false := by decide

/-- C3 counterexample: the matcher compiled from the wildcard-free pattern
`a/b` accepts the longer topic `a/b/c`, refuting the claim that such a
pattern matches only the identical topic string. -/
theorem c3_literal_pattern_counterexample :
    topicMatch "a/b" "a/b/c" = true := by decide

/-- C3 (amended): the compiled regex is matched with `re.match`, which
anchors at the start of the topic but not at its end, so a wildcard-free
pattern accepts the identical topic and every topic that extends it with
further characters, while rejecting topics that deviate from it or merely
contain it in the middle. -/
theorem c3_literal_pattern_amended :
    topicMatch "a/b" "a/b" = true ∧
    topicMatch "a/b" "a/b/c" = true ∧
    topicMatch "a/b" "a/c" = false ∧
    topicMatch "a/b" "b/a/b" = false := by decide

/-- C4 counterexample: when the 10-second gate acquisition of `_teardown`
times out, the teardown body is skipped entirely — the broker client is not
stopped and no GPIO callback is unregistered — refuting the claim that
both happen unconditionally on every execution of teardown. -/
theorem c4_teardown_gate_counterexample :
    TeardownEv.mqttStop ∉ sensorsTeardown [4] false ∧
    TeardownEv.removeEventDetect 4 ∉ sensorsTeardown [4] false := by decide

/-- C4 (amended): the whole teardown body sits inside the
gate-acquisition conditional, so the hardware-line callbacks are
unregistered and the broker client is disconnected exactly when the gate is
acquired within the teardown timeout; when the acquisition times out,
neither action is performed. -/
theorem c4_teardown_gate_amended (eventChannels : List Nat)
    (lockAcquired : Bool) :
    (TeardownEv.mqttStop ∈ sensorsTeardown eventChannels lockAcquired ↔
      lockAcquired = true)
    ∧ ∀ ch ∈ eventChannels,
        (TeardownEv.removeEventDetect ch ∈
            sensorsTeardown eventChannels lockAcquired ↔
          lockAcquired = true) := by
  cases lockAcquired <;> simp [sensorsTeardown]

/-- C4 witness: with the gate acquired, the teardown of a worker with one
registered channel stops the broker client and unregisters that channel. -/
theorem c4_teardown_gate_amended_witness :
    TeardownEv.mqttStop ∈ sensorsTeardown [4] true ∧
    TeardownEv.removeEventDetect 4 ∈ sensorsTeardown [4] true :=
  ⟨(c4_teardown_gate_amended [4] true).1.mpr rfl,
    ((c4_teardown_gate_amended [4] true).2 4 (by decide)).mpr rfl⟩

/-- C5: an edge event arriving while the gate is held succeeds in
publishing whenever the holder releases the gate within the 20-second
event budget, and that budget is strictly larger than the 5-second
sampling budget — the asymmetry that gives the event handler priority. -/
theorem c5_event_priority (releaseAfter : Nat)
    (h : releaseAfter ≤ postEventTimeout) :
    postEventPublishes releaseAfter = true ∧
    postSamplesTimeout < postEventTimeout := by
  refine ⟨?_, by decide⟩
  simpa [postEventPublishes, acquireGate] using h

/-- C5 witness: a gate held for 7 more seconds defeats the sampling
acquire but the event acquire waits it out and publishes. -/
theorem c5_event_priority_witness :
    postEventPublishes 7 = true ∧ postSamplesPublishes 7 = false :=
  ⟨(c5_event_priority 7 (by decide)).1, by decide⟩

/-- C6 counterexample: the claimed ordering fails, because the
event-publish timeout (20 s) exceeds the teardown timeout (10 s). -/
theorem c6_timeout_order_counterexample :
    ¬ (postSamplesTimeout < postEventTimeout ∧
        postEventTimeout ≤ teardownTimeout) := by decide

/-- C6 (amended): the actual ordering of the three gate timeouts is
sampling (5 s) < teardown (10 s) < event (20 s): the sampling timeout is
the smallest and the event timeout the largest, with the teardown timeout
strictly between them. -/
theorem c6_timeout_order_amended :
    postSamplesTimeout < teardownTimeout ∧
    teardownTimeout < postEventTimeout ∧
    postSamplesTimeout < postEventTimeout := by decide

/-- C7 counterexample: unsubscribing a pattern on a client with an empty
callback registry raises `KeyError` (the `del` on an absent key), refuting
the claim that the operation is a no-op that does not raise. -/
theorem c7_unregister_counterexample :
    unregister "home" ([] : List (List Char × Nat)) "a/b" =
      Except.error () := rfl

/-- C7 (amended): calling `unregister` with a pattern whose registry key
was never registered (or was already removed) raises `KeyError` — the
registry itself is left unchanged, but the call is not a silent no-op. -/
theorem c7_unregister_amended {α : Type} (baseTopic : String)
    (cbs : List (List Char × α)) (topic : String)
    (h : ∀ e ∈ cbs, e.1 ≠ regKey baseTopic topic) :
    unregister baseTopic cbs topic = Except.error () := by
  have hany : cbs.any (fun e => e.1 == regKey baseTopic topic) = false := by
    simp only [List.any_eq_false, beq_iff_eq]
    exact h
  simp [unregister, hany]

/-- C7 witness: a registry holding one unrelated entry raises on an
unregistered pattern. -/
theorem c7_unregister_amended_witness :
    unregister "home" [(['q'], (3 : Nat))] "a/b" = Except.error () :=
  c7_unregister_amended "home" [(['q'], (3 : Nat))] "a/b" (by decide)

/-- C8: with `max_attempts = 3` and probe results absent, absent, present,
the detection loop performs exactly 3 probe rounds and stops with the
presence flag set; the subsequent status update records the subject as
present and publishes (whatever the notify-always flag), with the payload
status string `present`. -/
theorem c8_three_probe_rounds :
    detectPersonPresence 3 (fun i => i == 3) = (3, true) ∧
    updatePresenceStatus false false true = (true, true) ∧
    updatePresenceStatus true false true = (true, true) ∧
    statusString true = "present" :=
  ⟨rfl, rfl, rfl, rfl⟩

/-- C9: with `notify_always = false`, a tick publishes exactly when the
detection outcome differs from the recorded status; two consecutive ticks
with the same outcome publish once (on the transition), and a tick whose
outcome equals the recorded status publishes nothing. -/
theorem c9_notify_policy (prev outcome : Bool) :
    (updatePresenceStatus false prev outcome).2 = (outcome != prev) ∧
    (outcome ≠ prev → runTicks false prev [outcome, outcome] = 1) ∧
    runTicks false prev [prev] = 0 := by
  cases prev <;> cases outcome <;> decide

/-- C9 witness: from recorded status absent, two consecutive present
outcomes yield exactly one publish. -/
theorem c9_notify_policy_witness : runTicks false false [true, true] = 1 :=
  (c9_notify_policy false true).2.1 (by decide)

/-- C10: the constructor records every tracked subject as absent, so with
`notify_always = false` a first tick whose outcome is absent is not a
transition and publishes nothing. -/
theorem c10_initial_absent (persons : List (String × String)) (name : String)
    (h : name ∈ persons.map Prod.fst) :
    lookupStatus (initPersonsStatus persons) name = some false ∧
    (updatePresenceStatus false false false).2 = false := by
  refine ⟨?_, rfl⟩
  induction persons with
  | nil => cases h
  | cons p rest ih =>
    rw [List.map_cons, List.mem_cons] at h
    by_cases hp : p.1 = name
    · simp [initPersonsStatus, lookupStatus, hp]
    · have hname : name ∈ rest.map Prod.fst := by
        rcases h with h | h
        · exact absurd h.symm hp
        · exact h
      simpa [initPersonsStatus, lookupStatus, hp] using ih hname

/-- C10 witness: a worker tracking one subject starts with that subject
recorded absent. -/
theorem c10_initial_absent_witness :
    lookupStatus (initPersonsStatus [("alice", "192.168.1.10")]) "alice" =
      some false :=
  (c10_initial_absent [("alice", "192.168.1.10")] "alice" (by decide)).1

end PiHome
